import Mathlib

/-!
Verification development for the rama-x-governor rate-limiting library.

The repository wires the external governor crate into a rama `Policy`:
`src/lib.rs` defines `GovernorPolicy` (Direct or Keyed), its builder, and a
lazy garbage-collection starter.  The token-bucket decision algorithm itself
lives in the governor crate (an external dependency, not part of src/), so the
quota and bucket definitions below are modelled from the specification
(sections 3, 4.2, 4.3, 4.4); everything else is translated from src/lib.rs.

Machine integers (u32 counts) are modelled as Nat; times and token counts as
rationals.  Rust calls that can panic through `expect` are modelled with the
`BuildResult` type, whose `aborted` constructor carries the panic message and
represents a process abort, in contrast with an ordinary returned value.
-/

/-- Decision of one limiter-level check: governor returns Ok (allow) or an
error (deny). -/
inductive Decision where
  | allow
  | deny
deriving DecidableEq, Repr

/-- Modelled from the spec: a Quota is an immutable refill rate (tokens per
second, rational) plus a burst capacity (section 3).  Mirrors governor Quota. -/
structure Quota where
  refill_rate : ℚ
  burst_capacity : ℕ
deriving DecidableEq, Repr

/-- Modelled from the spec: governor Quota.per_second n sets a rate of n per
second with burst capacity defaulting to n (section 4.1: burst defaults to the
rate-equivalent per-period count). -/
def Quota.per_second (n : ℕ) : Quota :=
  { refill_rate := (n : ℚ), burst_capacity := n }

/-- Modelled from the spec: governor Quota.per_minute n sets a rate of n per
minute (n / 60 per second) with burst capacity defaulting to n. -/
def Quota.per_minute (n : ℕ) : Quota :=
  { refill_rate := (n : ℚ) / 60, burst_capacity := n }

/-- Modelled from the spec: governor Quota.allow_burst m replaces the burst
capacity, keeping the refill rate. -/
def Quota.allow_burst (q : Quota) (m : ℕ) : Quota :=
  { refill_rate := q.refill_rate, burst_capacity := m }

/-- Modelled from the spec: per-entity bucket state, a token count and the
timestamp of the last state-changing update (section 3). -/
structure Bucket where
  tokens : ℚ
  last_update : ℚ
deriving DecidableEq, Repr

/-- Modelled from the spec: a bucket starts full, tokens equal to the burst
capacity (section 4.3). -/
def fullBucket (q : Quota) (t : ℚ) : Bucket :=
  { tokens := (q.burst_capacity : ℚ), last_update := t }

/-- Modelled from the spec: the refill step of a check (section 4.2 steps 1-2):
elapsed time clamped at 0, tokens grown by elapsed times rate, capped at the
burst capacity. -/
def refillTokens (q : Quota) (b : Bucket) (now : ℚ) : ℚ :=
  min ((q.burst_capacity : ℚ)) (b.tokens + max 0 (now - b.last_update) * q.refill_rate)

/-- Modelled from the spec: the bucket check (section 4.2): refill, then if at
least one token is available subtract one and advance last_update, otherwise
deny leaving the bucket untouched.  This is the semantics of a governor
limiter check. -/
def bucketCheck (q : Quota) (b : Bucket) (now : ℚ) : Decision × Bucket :=
  if 1 ≤ refillTokens q b now then
    (.allow, { tokens := refillTokens q b now - 1, last_update := now })
  else
    (.deny, b)

/-- A sequence of n bucket checks, all issued at the same time `now`,
threading the bucket state. -/
def bucketRun (q : Quota) : Bucket → ℚ → ℕ → List Decision
  | _, _, 0 => []
  | b, now, Nat.succ n =>
    (bucketCheck q b now).1 :: bucketRun q (bucketCheck q b now).2 now n

/-- Modelled from the spec: one entry of the KeyedStore: a bucket plus the
last-access timestamp used by the reaper (section 3). -/
structure StoreEntry where
  bucket : Bucket
  last_access : ℚ
deriving DecidableEq, Repr

/-- Lookup in the keyed store, modelled as an association list (the concurrent
hash map of governor keyed limiters, modelled from the spec section 3). -/
def storeLookup {K : Type} [DecidableEq K] : List (K × StoreEntry) → K → Option StoreEntry
  | [], _ => none
  | e :: rest, k => if e.1 = k then some e.2 else storeLookup rest k

/-- Insert-or-update in the keyed store. -/
def storeInsert {K : Type} [DecidableEq K] : List (K × StoreEntry) → K → StoreEntry → List (K × StoreEntry)
  | [], k, e => [(k, e)]
  | p :: rest, k, e => if p.1 = k then (k, e) :: rest else p :: storeInsert rest k e

/-- Keyed rate limiter policy (src/lib.rs lines 49-57): a governor keyed
limiter (quota plus per-key store, the store modelled from the spec), the key
derivation function and the garbage-collection interval. -/
structure KeyedPolicy (K : Type) where
  quota : Quota
  store : List (K × StoreEntry)
  key_fn : String → K
  gc_interval : ℚ

/-- Modelled from the spec: a governor keyed-limiter check at an already
derived key (section 4.4): fetch-or-insert the bucket (full if newly created),
run the bucket check, store the resulting bucket with last_access = now. -/
def KeyedPolicy.check_at {K : Type} [DecidableEq K] (p : KeyedPolicy K) (key : K) (now : ℚ) :
    Decision × KeyedPolicy K :=
  let bkt := match storeLookup p.store key with
    | some e => e.bucket
    | none => fullBucket p.quota now
  let r := bucketCheck p.quota bkt now
  (r.1, { p with store := storeInsert p.store key { bucket := r.2, last_access := now } })

/-- KeyedPolicy.check_key (src/lib.rs lines 76-79): derive the key by applying
key_fn to the hint string, then check the keyed limiter at that key. -/
def KeyedPolicy.check_key {K : Type} [DecidableEq K] (p : KeyedPolicy K) (key_str : String) (now : ℚ) :
    Decision × KeyedPolicy K :=
  p.check_at (p.key_fn key_str) now

/-- Run a list of keyed checks (hint, time), threading the policy state. -/
def runKeyChecks {K : Type} [DecidableEq K] (p : KeyedPolicy K) (ops : List (String × ℚ)) :
    KeyedPolicy K :=
  List.foldl (fun q o => (q.check_key o.1 o.2).2) p ops

/-- One tick of the keyed garbage-collection task spawned in
GovernorPolicy.start_gc_if_needed (src/lib.rs lines 243-250): the spawned task
captures only the interval, its loop body after tick() is empty and it has no
access to the policy or its store, and KeyedPolicy.start_gc_if_needed
(src/lib.rs lines 81-83) is likewise an empty stub; hence a tick leaves the
policy, in particular every store entry, in place. -/
def keyedGcTick {K : Type} (p : KeyedPolicy K) : KeyedPolicy K := p

/-- Direct rate limiter policy (src/lib.rs lines 36-39): a governor direct
limiter (quota plus one shared bucket, bucket modelled from the spec) and the
garbage-collection interval. -/
structure DirectPolicy where
  quota : Quota
  bucket : Bucket
  gc_interval : ℚ
deriving DecidableEq, Repr

/-- GovernorPolicy (src/lib.rs lines 28-33): either a direct limiter or a
keyed limiter (trait object in Rust, kept generic in the key type here). -/
inductive GovernorPolicy (K : Type) where
  | Direct : DirectPolicy → GovernorPolicy K
  | Keyed : KeyedPolicy K → GovernorPolicy K

/-- GovernorError (src/lib.rs lines 20-24): the only error of a check. -/
inductive GovernorError where
  | RateLimited
deriving DecidableEq, Repr

/-- PolicyOutput of a rama policy check, as used in src/lib.rs: Ready (with a
unit guard) or Abort with an error. -/
inductive PolicyOutput where
  | Ready : PolicyOutput
  | Abort : GovernorError → PolicyOutput
deriving DecidableEq, Repr

/-- Mapping from the limiter-level decision to the policy output, as done in
the match arms of check (src/lib.rs lines 274-313). -/
def Decision.toOutput : Decision → PolicyOutput
  | .allow => .Ready
  | .deny => .Abort .RateLimited

/-- PolicyResult of a check (rama), as built in src/lib.rs lines 277-311: the
request passed through and the output.  The updated limiter state, which in
Rust lives behind an Arc, is threaded explicitly here. -/
structure PolicyResult (K : Type) (A : Type) where
  request : A
  output : PolicyOutput
  policy : GovernorPolicy K

/-- Policy check for GovernorPolicy (src/lib.rs lines 265-315).  The Direct
branch consults the single shared bucket and never reads the request; the
Keyed branch uses the hard-coded hint "default" (src/lib.rs line 294) and
derives the key from it.  The call to start_gc_if_needed on entry only touches
the process-wide GC registry, modelled separately below, and never the limiter
state, so it is omitted from the state threading here. -/
def GovernorPolicy.check {K A : Type} [DecidableEq K] (p : GovernorPolicy K) (request : A) (now : ℚ) :
    PolicyResult K A :=
  match p with
  | .Direct d =>
    { request := request
      output := (bucketCheck d.quota d.bucket now).1.toOutput
      policy := .Direct { d with bucket := (bucketCheck d.quota d.bucket now).2 } }
  | .Keyed kp =>
    { request := request
      output := (kp.check_key ("default") now).1.toOutput
      policy := .Keyed (kp.check_key ("default") now).2 }

/-- A sequence of n policy checks with the same request, all issued at the
same time, threading the policy state. -/
def GovernorPolicy.runChecks {K A : Type} [DecidableEq K] (p : GovernorPolicy K) (request : A) (now : ℚ) :
    ℕ → List PolicyOutput
  | 0 => []
  | Nat.succ n =>
    (p.check request now).output :: ((p.check request now).policy.runChecks request now n)

/-- Outcome of a Rust call that either returns a value or aborts the process
through a panic (expect) with the given message. -/
inductive BuildResult (α : Type) where
  | ret : α → BuildResult α
  | aborted : String → BuildResult α
deriving DecidableEq, Repr

/-- Sequencing of fallible builder calls: an abort propagates. -/
def BuildResult.bind {α β : Type} (x : BuildResult α) (f : α → BuildResult β) : BuildResult β :=
  match x with
  | .ret a => f a
  | .aborted m => .aborted m

/-- GovernorPolicyBuilder (src/lib.rs lines 110-113): an optional quota and
the garbage-collection interval (seconds). -/
structure GovernorPolicyBuilder where
  quota : Option Quota
  gc_interval : ℚ
deriving DecidableEq, Repr

/-- GovernorPolicyBuilder.new (src/lib.rs lines 123-128): no quota, GC
interval 60 seconds.  GovernorPolicy.builder (lines 203-208) is identical. -/
def GovernorPolicyBuilder.new : GovernorPolicyBuilder :=
  { quota := none, gc_interval := 60 }

/-- GovernorPolicyBuilder.per_second (src/lib.rs lines 133-140): replaces the
quota with Quota.per_second(count); NonZeroU32.new(count).expect(...) aborts
on count = 0. -/
def GovernorPolicyBuilder.per_second (b : GovernorPolicyBuilder) (count : ℕ) :
    BuildResult GovernorPolicyBuilder :=
  if count = 0 then .aborted ("Rate limit count must be non-zero")
  else .ret { quota := some (Quota.per_second count), gc_interval := b.gc_interval }

/-- GovernorPolicyBuilder.per_minute (src/lib.rs lines 145-152): replaces the
quota with Quota.per_minute(count); aborts on count = 0. -/
def GovernorPolicyBuilder.per_minute (b : GovernorPolicyBuilder) (count : ℕ) :
    BuildResult GovernorPolicyBuilder :=
  if count = 0 then .aborted ("Rate limit count must be non-zero")
  else .ret { quota := some (Quota.per_minute count), gc_interval := b.gc_interval }

/-- GovernorPolicyBuilder.burst_size (src/lib.rs lines 157-163): if a quota is
set, replace its burst; the expect that aborts on size = 0 sits inside the
if-let, so with no quota the call is a no-op even for size = 0. -/
def GovernorPolicyBuilder.burst_size (b : GovernorPolicyBuilder) (size : ℕ) :
    BuildResult GovernorPolicyBuilder :=
  match b.quota with
  | none => .ret b
  | some q =>
    if size = 0 then .aborted ("Rate limit count must be non-zero")
    else .ret { b with quota := some (q.allow_burst size) }

/-- GovernorPolicyBuilder.build (src/lib.rs lines 172-180): self.quota.expect
aborts when no quota was configured; otherwise a Direct policy whose governor
limiter starts with a full bucket (creation time t0). -/
def GovernorPolicyBuilder.build {K : Type} (b : GovernorPolicyBuilder) (t0 : ℚ) :
    BuildResult (GovernorPolicy K) :=
  match b.quota with
  | none => .aborted ("Quota must be set")
  | some q => .ret (.Direct { quota := q, bucket := fullBucket q t0, gc_interval := b.gc_interval })

/-- GovernorPolicyBuilder.build_with_keyer (src/lib.rs lines 183-198):
self.quota.expect aborts when no quota was configured; otherwise a Keyed
policy with an empty store. -/
def GovernorPolicyBuilder.build_with_keyer {K : Type} (b : GovernorPolicyBuilder) (f : String → K) :
    BuildResult (GovernorPolicy K) :=
  match b.quota with
  | none => .aborted ("Quota must be set")
  | some q => .ret (.Keyed { quota := q, store := [], key_fn := f, gc_interval := b.gc_interval })

/-- The process-wide garbage-collection registry of start_gc_if_needed
(src/lib.rs lines 212-214): DIRECT_GC_STARTED is a static OnceCell shared by
every Direct policy in the process, KEYED_GC_STARTED a static set of raw
policy addresses, and spawned_tasks counts the tokio spawn calls (reaper
tasks) performed so far. -/
structure GcRegistry where
  direct_gc_started : Bool
  keyed_gc_started : List ℕ
  spawned_tasks : ℕ
deriving DecidableEq, Repr

/-- Identity of an engine instance as seen by start_gc_if_needed: the Direct
branch carries its instance address only to show the code ignores it, the
Keyed branch is identified by the raw pointer address (src/lib.rs line 232). -/
inductive EngineRef where
  | direct : ℕ → EngineRef
  | keyed : ℕ → EngineRef
deriving DecidableEq, Repr

/-- GovernorPolicy.start_gc_if_needed (src/lib.rs lines 211-254) acting on the
process-wide registry: for a Direct policy the static OnceCell spawns at most
one task in the whole process, regardless of which instance calls; for a Keyed
policy one task is spawned per raw address. -/
def start_gc_if_needed (e : EngineRef) (g : GcRegistry) : GcRegistry :=
  match e with
  | .direct _ =>
    if g.direct_gc_started then g
    else { g with direct_gc_started := true, spawned_tasks := g.spawned_tasks + 1 }
  | .keyed a =>
    if a ∈ g.keyed_gc_started then g
    else { g with keyed_gc_started := a :: g.keyed_gc_started, spawned_tasks := g.spawned_tasks + 1 }

/-- Refilling at the very instant of the last update adds nothing: the tokens
are just capped at the burst capacity. -/
theorem refillTokens_now (q : Quota) (tok t : ℚ) :
    refillTokens q { tokens := tok, last_update := t } t = min ((q.burst_capacity : ℚ)) tok := by
  simp [refillTokens]

/-- Refilling after a nonnegative wait w adds w times the refill rate, capped
at the burst capacity. -/
theorem refillTokens_elapsed (q : Quota) (tok t w : ℚ) (hw : 0 ≤ w) :
    refillTokens q { tokens := tok, last_update := t } (t + w)
      = min ((q.burst_capacity : ℚ)) (tok + w * q.refill_rate) := by
  unfold refillTokens
  rw [add_sub_cancel_left, max_eq_right hw]


/-- A run of same-instant checks starting from a whole number c of tokens (at
most the capacity) allows the first min c n checks and denies the rest. -/
theorem bucketRun_sameInstant (rate : ℚ) (cap : ℕ) (t : ℚ) :
    ∀ (n c : ℕ), c ≤ cap →
      bucketRun { refill_rate := rate, burst_capacity := cap } { tokens := (c : ℚ), last_update := t } t n
        = List.replicate (min c n) .allow ++ List.replicate (n - c) .deny := by
  intro n
  induction n with
  | zero => intro c hc; simp [bucketRun]
  | succ n ih =>
    intro c hc
    have hrt : refillTokens { refill_rate := rate, burst_capacity := cap }
        { tokens := (c : ℚ), last_update := t } t = (c : ℚ) := by
      rw [refillTokens_now]
      exact min_eq_right (by exact_mod_cast hc)
    by_cases h1 : 1 ≤ c
    · have hbc : bucketCheck { refill_rate := rate, burst_capacity := cap }
          { tokens := (c : ℚ), last_update := t } t
          = (.allow, { tokens := ((c - 1 : ℕ) : ℚ), last_update := t }) := by
        unfold bucketCheck
        rw [hrt, if_pos (by exact_mod_cast h1 : (1 : ℚ) ≤ (c : ℚ))]
        rw [Nat.cast_sub h1, Nat.cast_one]
      have step : bucketRun { refill_rate := rate, burst_capacity := cap }
          { tokens := (c : ℚ), last_update := t } t (n + 1)
          = .allow :: bucketRun { refill_rate := rate, burst_capacity := cap }
              { tokens := ((c - 1 : ℕ) : ℚ), last_update := t } t n := by
        show (bucketCheck _ _ t).1 :: bucketRun _ (bucketCheck _ _ t).2 t n = _
        rw [hbc]
      rw [step, ih (c - 1) (by omega)]
      have e1 : min c (n + 1) = min (c - 1) n + 1 := by omega
      have e2 : (n + 1) - c = n - (c - 1) := by omega
      rw [e1, e2, List.replicate_succ, List.cons_append]
    · have hc0 : c = 0 := by omega
      subst hc0
      have hbc : bucketCheck { refill_rate := rate, burst_capacity := cap }
          { tokens := ((0 : ℕ) : ℚ), last_update := t } t
          = (.deny, { tokens := ((0 : ℕ) : ℚ), last_update := t }) := by
        unfold bucketCheck
        rw [hrt, if_neg (by norm_num : ¬ ((1 : ℚ) ≤ ((0 : ℕ) : ℚ)))]
      have step : bucketRun { refill_rate := rate, burst_capacity := cap }
          { tokens := ((0 : ℕ) : ℚ), last_update := t } t (n + 1)
          = .deny :: bucketRun { refill_rate := rate, burst_capacity := cap }
              { tokens := ((0 : ℕ) : ℚ), last_update := t } t n := by
        show (bucketCheck _ _ t).1 :: bucketRun _ (bucketCheck _ _ t).2 t n = _
        rw [hbc]
      rw [step, ih 0 (by omega)]
      simp [List.replicate_succ]

/-- A run of policy checks on a Direct policy is the run of bucket checks on
its shared bucket, mapped through Decision.toOutput. -/
theorem direct_runChecks_bucketRun {K A : Type} [DecidableEq K] (d : DirectPolicy) (r : A)
    (now : ℚ) (n : ℕ) :
    (GovernorPolicy.Direct (K := K) d).runChecks r now n
      = (bucketRun d.quota d.bucket now n).map Decision.toOutput := by
  induction n generalizing d with
  | zero => rfl
  | succ n ih =>
    show ((GovernorPolicy.Direct d).check r now).output ::
        (((GovernorPolicy.Direct d).check r now).policy.runChecks r now n) = _
    rw [show ((GovernorPolicy.Direct (K := K) d).check r now).policy
        = GovernorPolicy.Direct { d with bucket := (bucketCheck d.quota d.bucket now).2 } from rfl]
    rw [ih]
    rfl

/-- Inserting at key k does not change what lookup sees at a different key. -/
theorem storeLookup_insert_ne {K : Type} [DecidableEq K] (st : List (K × StoreEntry)) (k : K)
    (e : StoreEntry) (j : K) (h : j ≠ k) :
    storeLookup (storeInsert st k e) j = storeLookup st j := by
  induction st with
  | nil =>
    have hk : ¬ (k = j) := fun hh => h hh.symm
    simp [storeInsert, storeLookup, hk]
  | cons hd rest ih =>
    by_cases hp : hd.1 = k
    · have hk : ¬ (k = j) := fun hh => h hh.symm
      have hd1 : ¬ (hd.1 = j) := by rw [hp]; exact hk
      simp [storeInsert, hp, storeLookup, hk, hd1]
    · by_cases hq : hd.1 = j
      · simp [storeInsert, hp, storeLookup, hq, h]
      · simp [storeInsert, hp, storeLookup, hq, h, ih]

/-- A keyed check leaves the quota unchanged. -/
theorem check_key_quota {K : Type} [DecidableEq K] (p : KeyedPolicy K) (s : String) (t : ℚ) :
    ((p.check_key s t).2).quota = p.quota := rfl

/-- A keyed check leaves the key function unchanged. -/
theorem check_key_key_fn {K : Type} [DecidableEq K] (p : KeyedPolicy K) (s : String) (t : ℚ) :
    ((p.check_key s t).2).key_fn = p.key_fn := rfl

/-- A keyed check whose derived key differs from j does not change what lookup
sees at j. -/
theorem check_key_lookup_ne {K : Type} [DecidableEq K] (p : KeyedPolicy K) (s : String) (t : ℚ)
    (j : K) (h : p.key_fn s ≠ j) :
    storeLookup ((p.check_key s t).2).store j = storeLookup p.store j := by
  simp only [KeyedPolicy.check_key, KeyedPolicy.check_at]
  exact storeLookup_insert_ne p.store (p.key_fn s) _ j (Ne.symm h)

/-- A run of keyed checks leaves the quota unchanged. -/
theorem runKeyChecks_quota {K : Type} [DecidableEq K] (ops : List (String × ℚ)) :
    ∀ p : KeyedPolicy K, (runKeyChecks p ops).quota = p.quota := by
  induction ops with
  | nil => intro p; rfl
  | cons o rest ih =>
    intro p
    show (runKeyChecks ((p.check_key o.1 o.2).2) rest).quota = p.quota
    rw [ih, check_key_quota]

/-- A run of keyed checks leaves the key function unchanged. -/
theorem runKeyChecks_key_fn {K : Type} [DecidableEq K] (ops : List (String × ℚ)) :
    ∀ p : KeyedPolicy K, (runKeyChecks p ops).key_fn = p.key_fn := by
  induction ops with
  | nil => intro p; rfl
  | cons o rest ih =>
    intro p
    show (runKeyChecks ((p.check_key o.1 o.2).2) rest).key_fn = p.key_fn
    rw [ih, check_key_key_fn]

/-- A run of keyed checks none of whose derived keys is j does not change what
lookup sees at j. -/
theorem runKeyChecks_lookup {K : Type} [DecidableEq K] (ops : List (String × ℚ)) (j : K) :
    ∀ p : KeyedPolicy K, (∀ o ∈ ops, p.key_fn o.1 ≠ j) →
      storeLookup (runKeyChecks p ops).store j = storeLookup p.store j := by
  induction ops with
  | nil => intro p _; rfl
  | cons o rest ih =>
    intro p h
    have h0 : p.key_fn o.1 ≠ j := h o (by simp)
    have hrest : ∀ o2 ∈ rest, ((p.check_key o.1 o.2).2).key_fn o2.1 ≠ j := by
      intro o2 ho2
      rw [check_key_key_fn]
      exact h o2 (by simp [ho2])
    show storeLookup (runKeyChecks ((p.check_key o.1 o.2).2) rest).store j = _
    rw [ih _ hrest, check_key_lookup_ne p o.1 o.2 j h0]

/-- Claim C1: a Direct engine built with rate R and burst capacity B starts
with a full bucket (tokens = B), so B policy checks in a zero-length time
window all return Ready (Allow) and the following check in the same window
returns Abort RateLimited (Deny). -/
theorem direct_burst_then_deny (R B : ℕ) (hR : 0 < R) (hB : 0 < B) (t0 : ℚ) :
    ∃ d : DirectPolicy,
      ((GovernorPolicyBuilder.new.per_second R).bind (fun b => b.burst_size B)).bind
          (fun b => b.build (K := String) t0) = .ret (.Direct d) ∧
      d.bucket.tokens = (B : ℚ) ∧
      d.quota.burst_capacity = B ∧
      (GovernorPolicy.Direct (K := String) d).runChecks () t0 (B + 1)
        = List.replicate B .Ready ++ [.Abort .RateLimited] := by
  have hR0 : ¬ (R = 0) := by omega
  have hB0 : ¬ (B = 0) := by omega
  refine ⟨{ quota := { refill_rate := (R : ℚ), burst_capacity := B },
            bucket := { tokens := (B : ℚ), last_update := t0 },
            gc_interval := 60 }, ?_, rfl, rfl, ?_⟩
  · simp [GovernorPolicyBuilder.new, GovernorPolicyBuilder.per_second,
      GovernorPolicyBuilder.burst_size, GovernorPolicyBuilder.build, BuildResult.bind,
      Quota.per_second, Quota.allow_burst, fullBucket, hR0, hB0]
  · rw [direct_runChecks_bucketRun]
    show (bucketRun { refill_rate := (R : ℚ), burst_capacity := B }
        { tokens := (B : ℚ), last_update := t0 } t0 (B + 1)).map Decision.toOutput
      = List.replicate B .Ready ++ [.Abort .RateLimited]
    rw [bucketRun_sameInstant (R : ℚ) B t0 (B + 1) B (le_refl B)]
    have e1 : min B (B + 1) = B := by omega
    have e2 : (B + 1) - B = 1 := by omega
    rw [e1, e2]
    simp [Decision.toOutput]

/-- Witness for direct_burst_then_deny at the end-to-end example of the spec:
rate 3 per second, burst 5, checks at time 0. -/
theorem direct_burst_then_deny_witness :
    0 < 3 ∧ 0 < 5 ∧
    (∃ d : DirectPolicy,
      ((GovernorPolicyBuilder.new.per_second 3).bind (fun b => b.burst_size 5)).bind
          (fun b => b.build (K := String) 0) = .ret (.Direct d) ∧
      d.bucket.tokens = ((5 : ℕ) : ℚ) ∧
      d.quota.burst_capacity = 5 ∧
      (GovernorPolicy.Direct (K := String) d).runChecks () 0 (5 + 1)
        = List.replicate 5 .Ready ++ [.Abort .RateLimited]) :=
  ⟨by decide, by decide, direct_burst_then_deny 3 5 (by decide) (by decide) 0⟩

/-- Claim C6: when fewer than one token is available after the transient
refill computation, the check denies and returns the bucket completely
unchanged: the token count is not decremented and last_update does not
advance. -/
theorem deny_preserves_bucket (q : Quota) (b : Bucket) (now : ℚ)
    (h : refillTokens q b now < 1) :
    bucketCheck q b now = (.deny, b) := by
  unfold bucketCheck
  rw [if_neg (not_le.mpr h)]

/-- Witness for deny_preserves_bucket on an empty bucket checked at its own
last-update instant. -/
theorem deny_preserves_bucket_witness :
    refillTokens { refill_rate := 1, burst_capacity := 1 }
        { tokens := 0, last_update := 0 } 0 < 1 ∧
    bucketCheck { refill_rate := 1, burst_capacity := 1 }
        { tokens := 0, last_update := 0 } 0
      = (.deny, { tokens := 0, last_update := 0 }) :=
  ⟨by norm_num [refillTokens], deny_preserves_bucket _ _ _ (by norm_num [refillTokens])⟩

/-- Claim C7: starting from an exhausted bucket (zero tokens), after waiting
w with 1 / R ≤ w < 2 / R one further check allows, the surviving token count
is the exact rational min(capacity, w times R) minus 1 (fractions preserved,
nothing truncated), and an immediately following check denies. -/
theorem refill_grants_exactly_one (q : Quota) (t0 w : ℚ) (hcap : 1 ≤ q.burst_capacity)
    (hrate : 0 < q.refill_rate) (h1 : 1 / q.refill_rate ≤ w) (h2 : w < 2 / q.refill_rate) :
    (bucketCheck q { tokens := 0, last_update := t0 } (t0 + w)).1 = .allow ∧
    (bucketCheck q { tokens := 0, last_update := t0 } (t0 + w)).2
      = { tokens := min ((q.burst_capacity : ℚ)) (w * q.refill_rate) - 1, last_update := t0 + w } ∧
    (bucketCheck q (bucketCheck q { tokens := 0, last_update := t0 } (t0 + w)).2 (t0 + w)).1
      = .deny := by
  have hw : 0 ≤ w := le_trans (by positivity) h1
  have hwr1 : 1 ≤ w * q.refill_rate := (div_le_iff₀ hrate).mp h1
  have hwr2 : w * q.refill_rate < 2 := (lt_div_iff₀ hrate).mp h2
  have hcapQ : (1 : ℚ) ≤ (q.burst_capacity : ℚ) := by exact_mod_cast hcap
  have hr1 : refillTokens q { tokens := 0, last_update := t0 } (t0 + w)
      = min ((q.burst_capacity : ℚ)) (w * q.refill_rate) := by
    rw [refillTokens_elapsed q 0 t0 w hw, zero_add]
  have hmin1 : 1 ≤ min ((q.burst_capacity : ℚ)) (w * q.refill_rate) := le_min hcapQ hwr1
  have hbc1 : bucketCheck q { tokens := 0, last_update := t0 } (t0 + w)
      = (.allow, { tokens := min ((q.burst_capacity : ℚ)) (w * q.refill_rate) - 1,
                   last_update := t0 + w }) := by
    unfold bucketCheck
    rw [hr1, if_pos hmin1]
  have htok : min ((q.burst_capacity : ℚ)) (w * q.refill_rate) - 1 < 1 := by
    have hle : min ((q.burst_capacity : ℚ)) (w * q.refill_rate) ≤ w * q.refill_rate :=
      min_le_right _ _
    linarith
  refine ⟨by rw [hbc1], by rw [hbc1], ?_⟩
  rw [hbc1]
  have hr2 : refillTokens q
      { tokens := min ((q.burst_capacity : ℚ)) (w * q.refill_rate) - 1, last_update := t0 + w }
      (t0 + w)
      = min ((q.burst_capacity : ℚ)) (min ((q.burst_capacity : ℚ)) (w * q.refill_rate) - 1) :=
    refillTokens_now q _ (t0 + w)
  have hlt : refillTokens q
      { tokens := min ((q.burst_capacity : ℚ)) (w * q.refill_rate) - 1, last_update := t0 + w }
      (t0 + w) < 1 := by
    rw [hr2]
    exact lt_of_le_of_lt (min_le_right _ _) htok
  unfold bucketCheck
  rw [if_neg (not_le.mpr hlt)]

/-- Witness for refill_grants_exactly_one: rate 3 per second, burst 5,
exhausted at time 0, one-third of a second of waiting. -/
theorem refill_grants_exactly_one_witness :
    1 ≤ (5 : ℕ) ∧ (0 : ℚ) < 3 ∧ (1 : ℚ) / 3 ≤ 1 / 3 ∧ (1 : ℚ) / 3 < 2 / 3 ∧
    ((bucketCheck { refill_rate := 3, burst_capacity := 5 }
        { tokens := 0, last_update := 0 } (0 + 1 / 3)).1 = .allow ∧
    (bucketCheck { refill_rate := 3, burst_capacity := 5 }
        { tokens := 0, last_update := 0 } (0 + 1 / 3)).2
      = { tokens := min ((5 : ℚ)) (1 / 3 * 3) - 1, last_update := 0 + 1 / 3 } ∧
    (bucketCheck { refill_rate := 3, burst_capacity := 5 }
        (bucketCheck { refill_rate := 3, burst_capacity := 5 }
          { tokens := 0, last_update := 0 } (0 + 1 / 3)).2 (0 + 1 / 3)).1 = .deny) :=
  ⟨by norm_num, by norm_num, by norm_num, by norm_num,
    refill_grants_exactly_one { refill_rate := 3, burst_capacity := 5 } 0 (1 / 3)
      (by norm_num) (by norm_num) (by norm_num) (by norm_num)⟩

/-- Claim C9: the Direct branch of check never reads the request: two checks
with arbitrary different requests against the same bucket state and time have
the same output, and that output is a function of the shared bucket state,
the quota and the time alone. -/
theorem direct_check_ignores_request {K A : Type} [DecidableEq K] (d : DirectPolicy)
    (r1 r2 : A) (now : ℚ) :
    ((GovernorPolicy.Direct (K := K) d).check r1 now).output
      = ((GovernorPolicy.Direct (K := K) d).check r2 now).output ∧
    ((GovernorPolicy.Direct (K := K) d).check r1 now).output
      = (bucketCheck d.quota d.bucket now).1.toOutput :=
  ⟨rfl, rfl⟩

/-- Claim C2: a keyed check derives its key by applying the configured key
function to the hint (first conjunct), and distinct keys never share capacity:
any sequence of checks whose derived keys differ from the derived key of
hintB leaves the Allow or Deny outcome of a check for hintB unchanged
(second conjunct). -/
theorem keyed_isolation {K : Type} [DecidableEq K] (p : KeyedPolicy K)
    (ops : List (String × ℚ)) (hintB : String) (now : ℚ)
    (h : ∀ o ∈ ops, p.key_fn o.1 ≠ p.key_fn hintB) :
    p.check_key hintB now = p.check_at (p.key_fn hintB) now ∧
    ((runKeyChecks p ops).check_key hintB now).1 = (p.check_key hintB now).1 := by
  refine ⟨rfl, ?_⟩
  have hq : (runKeyChecks p ops).quota = p.quota := runKeyChecks_quota ops p
  have hk : (runKeyChecks p ops).key_fn = p.key_fn := runKeyChecks_key_fn ops p
  have hl : storeLookup (runKeyChecks p ops).store (p.key_fn hintB)
      = storeLookup p.store (p.key_fn hintB) := runKeyChecks_lookup ops (p.key_fn hintB) p h
  simp only [KeyedPolicy.check_key, KeyedPolicy.check_at, hq, hk, hl]

/-- Witness for keyed_isolation: identity key function, rate 2 burst 2,
key a exhausted by three checks (two allowed, one denied), key b checked. -/
theorem keyed_isolation_witness :
    (∀ o ∈ ([("a", 0), ("a", 0), ("a", 0)] : List (String × ℚ)),
      ({ quota := { refill_rate := 2, burst_capacity := 2 }, store := [],
         key_fn := id, gc_interval := 60 } : KeyedPolicy String).key_fn o.1
        ≠ ({ quota := { refill_rate := 2, burst_capacity := 2 }, store := [],
             key_fn := id, gc_interval := 60 } : KeyedPolicy String).key_fn ("b")) ∧
    (KeyedPolicy.check_key
        ({ quota := { refill_rate := 2, burst_capacity := 2 }, store := [],
           key_fn := id, gc_interval := 60 } : KeyedPolicy String) ("b") 0
      = KeyedPolicy.check_at
          ({ quota := { refill_rate := 2, burst_capacity := 2 }, store := [],
             key_fn := id, gc_interval := 60 } : KeyedPolicy String)
          (({ quota := { refill_rate := 2, burst_capacity := 2 }, store := [],
              key_fn := id, gc_interval := 60 } : KeyedPolicy String).key_fn ("b")) 0 ∧
    ((runKeyChecks
        ({ quota := { refill_rate := 2, burst_capacity := 2 }, store := [],
           key_fn := id, gc_interval := 60 } : KeyedPolicy String)
        [("a", 0), ("a", 0), ("a", 0)]).check_key ("b") 0).1
      = (KeyedPolicy.check_key
          ({ quota := { refill_rate := 2, burst_capacity := 2 }, store := [],
             key_fn := id, gc_interval := 60 } : KeyedPolicy String) ("b") 0).1) :=
  ⟨by decide, keyed_isolation _ _ _ _ (by decide)⟩

/-- Claim C3 (code bug): constructing a quota with count 0 does not return a
recoverable InvalidQuota error: per_second(0), per_minute(0) and, once a rate
is set, burst_size(0) all abort the process through the expect panic with the
message below (src/lib.rs lines 136, 148, 160); the GovernorError type has no
InvalidQuota variant at all. -/
theorem quota_zero_aborts :
    GovernorPolicyBuilder.new.per_second 0
      = .aborted ("Rate limit count must be non-zero") ∧
    GovernorPolicyBuilder.new.per_minute 0
      = .aborted ("Rate limit count must be non-zero") ∧
    (GovernorPolicyBuilder.new.per_second 5).bind (fun b => b.burst_size 0)
      = .aborted ("Rate limit count must be non-zero") :=
  ⟨rfl, rfl, rfl⟩

/-- Claim C4 (code bug): building with no configured rate does not return an
InvalidQuota error: both build() and build_with_keyer() abort the process
through self.quota.expect (src/lib.rs lines 173, 188). -/
theorem build_without_quota_aborts :
    GovernorPolicyBuilder.new.build (K := String) 0 = .aborted ("Quota must be set") ∧
    GovernorPolicyBuilder.new.build_with_keyer (fun s => s) = .aborted ("Quota must be set") :=
  ⟨rfl, rfl⟩

/-- Claim C5 (code bug): the garbage-collection tick evicts nothing.  With
sweep interval 60 and a store entry for key a untouched since time 0, at time
1000 (far beyond any retention window) the tick leaves the policy unchanged,
a subsequent check for key a still finds the drained bucket and denies
(rate 1/100000, so the refill over the idle time is only 1/100 token), while
first-seen behavior, mandated by the claim after eviction, would find a full
fresh bucket and allow. -/
theorem reaper_stub_no_eviction :
    keyedGcTick
        ({ quota := { refill_rate := 1 / 100000, burst_capacity := 5 },
           store := [("a", { bucket := { tokens := 0, last_update := 0 }, last_access := 0 })],
           key_fn := id, gc_interval := 60 } : KeyedPolicy String)
      = ({ quota := { refill_rate := 1 / 100000, burst_capacity := 5 },
           store := [("a", { bucket := { tokens := 0, last_update := 0 }, last_access := 0 })],
           key_fn := id, gc_interval := 60 } : KeyedPolicy String) ∧
    ((keyedGcTick
        ({ quota := { refill_rate := 1 / 100000, burst_capacity := 5 },
           store := [("a", { bucket := { tokens := 0, last_update := 0 }, last_access := 0 })],
           key_fn := id, gc_interval := 60 } : KeyedPolicy String)).check_key ("a") 1000).1
      = .deny ∧
    (KeyedPolicy.check_key
        ({ quota := { refill_rate := 1 / 100000, burst_capacity := 5 }, store := [],
           key_fn := id, gc_interval := 60 } : KeyedPolicy String) ("a") 1000).1
      = .allow := by
  refine ⟨rfl, ?_, ?_⟩ <;>
    norm_num [keyedGcTick, KeyedPolicy.check_key, KeyedPolicy.check_at, storeLookup,
      bucketCheck, refillTokens, fullBucket]

/-- Claim C8 (code bug): reaper start is guarded process-wide, not
per-instance.  From a fresh registry, the first check of a first Direct
engine spawns one task; the first check of a second, distinct Direct engine
spawns none (the static OnceCell is already set), leaving one task where the
claim requires one per instance; repeated starts from the same keyed instance
spawn only one task, while two distinct keyed addresses do get one each. -/
theorem gc_start_process_wide :
    (start_gc_if_needed (.direct 0)
        { direct_gc_started := false, keyed_gc_started := [], spawned_tasks := 0 }).spawned_tasks
      = 1 ∧
    (start_gc_if_needed (.direct 1) (start_gc_if_needed (.direct 0)
        { direct_gc_started := false, keyed_gc_started := [],
          spawned_tasks := 0 })).spawned_tasks = 1 ∧
    (start_gc_if_needed (.keyed 7) (start_gc_if_needed (.keyed 7)
        { direct_gc_started := false, keyed_gc_started := [],
          spawned_tasks := 0 })).spawned_tasks = 1 ∧
    (start_gc_if_needed (.keyed 8) (start_gc_if_needed (.keyed 7)
        { direct_gc_started := false, keyed_gc_started := [],
          spawned_tasks := 0 })).spawned_tasks = 2 := by
  refine ⟨rfl, rfl, ?_, ?_⟩ <;> decide

/-- Claim C10: builder calls are order sensitive: burst_size with no rate set
is a silent no-op (even for size 0); per_second or per_minute after
burst_size(m) replaces the whole quota, so the burst falls back to the
default n, discarding m; only rate-then-burst yields burst capacity m, and a
later rate call discards a previously set burst again. -/
theorem builder_order_sensitivity (n m : ℕ) (hn : 0 < n) (hm : 0 < m) :
    (GovernorPolicyBuilder.new.burst_size m = .ret GovernorPolicyBuilder.new) ∧
    ((GovernorPolicyBuilder.new.burst_size m).bind (fun b => b.per_second n)
      = .ret { quota := some { refill_rate := (n : ℚ), burst_capacity := n },
               gc_interval := 60 }) ∧
    ((GovernorPolicyBuilder.new.burst_size m).bind (fun b => b.per_minute n)
      = .ret { quota := some { refill_rate := (n : ℚ) / 60, burst_capacity := n },
               gc_interval := 60 }) ∧
    ((GovernorPolicyBuilder.new.per_second n).bind (fun b => b.burst_size m)
      = .ret { quota := some { refill_rate := (n : ℚ), burst_capacity := m },
               gc_interval := 60 }) ∧
    (((GovernorPolicyBuilder.new.per_second n).bind (fun b => b.burst_size m)).bind
        (fun b => b.per_second n)
      = .ret { quota := some { refill_rate := (n : ℚ), burst_capacity := n },
               gc_interval := 60 }) := by
  have hn0 : ¬ (n = 0) := by omega
  have hm0 : ¬ (m = 0) := by omega
  refine ⟨rfl, ?_, ?_, ?_, ?_⟩ <;>
    simp [GovernorPolicyBuilder.new, GovernorPolicyBuilder.per_second,
      GovernorPolicyBuilder.per_minute, GovernorPolicyBuilder.burst_size, BuildResult.bind,
      Quota.per_second, Quota.per_minute, Quota.allow_burst, hn0, hm0]

/-- Witness for builder_order_sensitivity at rate 3 and burst 7. -/
theorem builder_order_sensitivity_witness :
    0 < 3 ∧ 0 < 7 ∧
    ((GovernorPolicyBuilder.new.burst_size 7 = .ret GovernorPolicyBuilder.new) ∧
    ((GovernorPolicyBuilder.new.burst_size 7).bind (fun b => b.per_second 3)
      = .ret { quota := some { refill_rate := ((3 : ℕ) : ℚ), burst_capacity := 3 },
               gc_interval := 60 }) ∧
    ((GovernorPolicyBuilder.new.burst_size 7).bind (fun b => b.per_minute 3)
      = .ret { quota := some { refill_rate := ((3 : ℕ) : ℚ) / 60, burst_capacity := 3 },
               gc_interval := 60 }) ∧
    ((GovernorPolicyBuilder.new.per_second 3).bind (fun b => b.burst_size 7)
      = .ret { quota := some { refill_rate := ((3 : ℕ) : ℚ), burst_capacity := 7 },
               gc_interval := 60 }) ∧
    (((GovernorPolicyBuilder.new.per_second 3).bind (fun b => b.burst_size 7)).bind
        (fun b => b.per_second 3)
      = .ret { quota := some { refill_rate := ((3 : ℕ) : ℚ), burst_capacity := 3 },
               gc_interval := 60 })) :=
  ⟨by decide, by decide, builder_order_sensitivity 3 7 (by decide) (by decide)⟩
